import Mathlib

/-!
Shallow embedding of the HA_Planner integration (custom_components/planner).

The Python code is a synchronous HTTP client around the Microsoft Graph
Planner API.  We embed it by making the network explicit: each operation is a
pure Lean function of an *environment* that records the responses the server
would give, and it returns its Python result value together with the list of
HTTP requests it issued.  Python dictionaries returned by the API functions
are modelled as Lean structures whose `Option` fields are `none` exactly when
the corresponding key is absent; Python `None` is `Option.none`; Python string
truthiness (`if not s`) is emptiness.
-/

namespace Planner

/-- Python `a or b` on optional strings: `b` when `a` is `None` or empty. -/
def pyOrStr (a b : Option String) : Option String :=
  match a with
  | some s => if s.isEmpty then b else some s
  | none => b

/-- Python truthiness of an optional string: `some s` with `s` nonempty
survives, everything else collapses to `none`. -/
def strTruthy (a : Option String) : Option String :=
  match a with
  | some s => if s.isEmpty then none else some s
  | none => none

/-- Python `str.strip()`: drop leading and trailing whitespace.  (Defined
over the character list so that it evaluates inside the kernel.) -/
def pyStrip (s : String) : String :=
  String.mk
    (((s.toList.dropWhile Char.isWhitespace).reverse.dropWhile
        Char.isWhitespace).reverse)

/-- Python `str.lower()` (ASCII case folding, as used for the
case-insensitive bucket comparison). -/
def pyLower (s : String) : String :=
  String.mk (s.toList.map Char.toLower)

/-! ## Graph request executor (`_make_request`, planner_api.py lines 86-109)

`_make_request` performs a GET; on a 401 with `retry_auth=True` it clears the
cached token, re-authenticates and calls itself once with `retry_auth=False`;
afterwards `raise_for_status` raises an `HTTPError` (carrying the status code
and the response body) for any status in 400..599, and otherwise the parsed
JSON body is returned.  We model one call by the two responses the server
would give to the first attempt and to the retry; the parsed JSON payload is
abstracted to a `String`. -/

/-- One HTTP response as seen by `_make_request`: status code, raw text
(`response.text`, reported inside raised errors) and parsed JSON payload
(abstracted). -/
structure SimpleResp where
  status : Nat
  body : String
  payload : String
deriving Repr, DecidableEq

/-- `requests.Response.raise_for_status` raises for 400 <= status < 600. -/
def raisesForStatus (s : Nat) : Bool :=
  decide (400 ≤ s) && decide (s < 600)

/-- Outcome of `_make_request`: the parsed JSON on success, or the raised
`requests.exceptions.HTTPError` with status and response body. -/
inductive MRResult where
  | ok (payload : String)
  | httpError (status : Nat) (body : String)
deriving Repr, DecidableEq

/-- The body of `_make_request` when `retry_auth=False`: no 401 handling,
just `raise_for_status` then `response.json()`. -/
def make_request_once (r : SimpleResp) : MRResult :=
  if raisesForStatus r.status then .httpError r.status r.body else .ok r.payload

/-- `_make_request(endpoint)` (entered with `retry_auth=True`).  `r1` is the
server's response to the first GET, `r2` to the retry GET (issued only after a
first 401).  Returns the outcome, the number of GETs issued, and whether the
cached token was invalidated and re-acquired (`self.access_token = None`
followed by `self.authenticate()`).  The recursive call with
`retry_auth=False` is unrolled into `make_request_once`. -/
def make_request (r1 r2 : SimpleResp) : MRResult × Nat × Bool :=
  if r1.status == 401 then (make_request_once r2, 2, true)
  else (make_request_once r1, 1, false)

/-! ## Task write operations (`update_task`, `delete_task`)

Both operations use `requests` directly (not `_make_request`): a GET of
`planner/tasks/{id}` with a one-shot inline 401 re-auth, ETag extraction from
the response header or the `@odata.etag` body field, then a conditional
PATCH/DELETE carrying the ETag in `If-Match`, again with a one-shot inline
401 re-auth.  Each operation returns its Python result dictionary together
with the list of HTTP requests it issued. -/

/-- The `{"@odata.type": ..., "orderHint": " !"}` assignment value used for
newly added assignees (planner_api.py lines 668-671). -/
structure PlannerAssignment where
  odataType : String := "#microsoft.graph.plannerAssignment"
  orderHint : String := " !"
deriving Repr, DecidableEq

/-- Python-dict insertion on an association list: update the value in place
when the key is present, append otherwise (keys stay unique). -/
def dictInsert {α : Type} : List (String × α) → String → α → List (String × α)
  | [], k, v => [(k, v)]
  | (k', v') :: rest, k, v =>
    if k' = k then (k, v) :: rest else (k', v') :: dictInsert rest k v

/-- Python-dict lookup on an association list. -/
def dictGet {α : Type} (d : List (String × α)) (k : String) : Option α :=
  (d.find? (fun p => p.1 = k)).map (·.2)

/-- One iteration of the `for name in assignees` loop (planner_api.py lines
664-673): resolve the name; on success append the ID to `resolved_ids` and
insert a fresh assignment; on failure skip (with a logged warning). -/
def addAssigneeStep (resolveUser : String → Option String)
    (acc : List (String × Option PlannerAssignment) × List String)
    (name : String) :
    List (String × Option PlannerAssignment) × List String :=
  match resolveUser name with
  | some user_id => (dictInsert acc.1 user_id (some {}), acc.2 ++ [user_id])
  | none => acc

/-- One iteration of the tombstoning loop (planner_api.py lines 676-678):
currently assigned IDs not in `resolved_ids` are set to `null`. -/
def tombstoneStep (resolved : List String)
    (d : List (String × Option PlannerAssignment)) (existing_id : String) :
    List (String × Option PlannerAssignment) :=
  if existing_id ∈ resolved then d else dictInsert d existing_id none

/-- The assignments dictionary built by `update_task` when `assignees` is
supplied (planner_api.py lines 660-680): resolve each requested name
(`get_user_id_by_name`, modelled by the oracle `resolveUser`), recording the
resolved IDs and inserting a fresh `PlannerAssignment` for each; names that
fail to resolve are skipped; then every user ID of the task's current
assignments that is not among the resolved IDs is set to `none` (the JSON
`null` tombstone).  Returns the dictionary and the `resolved_ids` list. -/
def buildNewAssignments (resolveUser : String → Option String)
    (assignees : List String) (currentIds : List String) :
    List (String × Option PlannerAssignment) × List String :=
  let step1 := assignees.foldl (addAssigneeStep resolveUser) ([], [])
  (currentIds.foldl (tombstoneStep step1.2) step1.1, step1.2)

/-- The `percentComplete` entry of the update payload (planner_api.py lines
653-657): a supplied `percent_complete` is clamped to [0,100] and wins;
otherwise `completed` maps `true ↦ 100`, `false ↦ 0`; otherwise the key is
absent. -/
def percentField (percent_complete : Option Int) (completed : Option Bool) :
    Option Int :=
  match percent_complete with
  | some p => some (max 0 (min 100 p))
  | none =>
    match completed with
    | some c => some (if c then 100 else 0)
    | none => none

/-- The sparse PATCH body built by `update_task` (planner_api.py lines
645-683); a `none` field models an absent key.  Keys are inserted in source
order: title, dueDateTime, percentComplete, assignments, bucketId. -/
structure UpdatePayload where
  title : Option String := none
  dueDateTime : Option String := none
  percentComplete : Option Int := none
  assignments : Option (List (String × Option PlannerAssignment)) := none
  bucketId : Option String := none
deriving Repr, DecidableEq

/-- Python `if not update_payload`: the dict has no keys. -/
def UpdatePayload.isEmpty (p : UpdatePayload) : Bool :=
  p.title.isNone && p.dueDateTime.isNone && p.percentComplete.isNone &&
    p.assignments.isNone && p.bucketId.isNone

/-- `list(update_payload.keys())`, in insertion order. -/
def UpdatePayload.keyList (p : UpdatePayload) : List String :=
  (if p.title.isSome then ["title"] else []) ++
  (if p.dueDateTime.isSome then ["dueDateTime"] else []) ++
  (if p.percentComplete.isSome then ["percentComplete"] else []) ++
  (if p.assignments.isSome then ["assignments"] else []) ++
  (if p.bucketId.isSome then ["bucketId"] else [])

/-- `update_payload` as assembled by planner_api.py lines 645-683, given the
current task's assignment keys from the preceding GET. -/
def buildUpdatePayload (resolveUser : String → Option String)
    (title due_date : Option String) (assignees : Option (List String))
    (percent_complete : Option Int) (completed : Option Bool)
    (bucket_id : Option String) (currentIds : List String) : UpdatePayload :=
  { title := title
    dueDateTime := due_date
    percentComplete := percentField percent_complete completed
    assignments :=
      assignees.map (fun names => (buildNewAssignments resolveUser names currentIds).1)
    bucketId := bucket_id }

/-- The JSON body of a GET `planner/tasks/{id}` response, restricted to the
fields the write operations read: the `@odata.etag` value and the
`assignments` dictionary (user ID paired with the truthiness of its value). -/
structure TaskGetBody where
  odataEtag : Option String := none
  assignments : List (String × Bool) := []
deriving Repr, DecidableEq

/-- An HTTP response to a task-level request: status, optional `ETag`
header, and parsed body. -/
structure HttpResp where
  status : Nat
  etagHeader : Option String := none
  body : TaskGetBody := {}
deriving Repr, DecidableEq

/-- The server side of one write operation: the responses to the (up to two)
GETs, PATCHes and DELETEs, and the outcome of `get_user_id_by_name` for each
assignee name (that helper's own HTTP traffic is abstracted behind the
oracle). -/
structure TaskEnv where
  getResp1 : HttpResp
  getResp2 : HttpResp := { status := 500 }
  patchResp1 : HttpResp := { status := 204 }
  patchResp2 : HttpResp := { status := 500 }
  deleteResp1 : HttpResp := { status := 204 }
  deleteResp2 : HttpResp := { status := 500 }
  resolveUser : String → Option String := fun _ => none

/-- One HTTP request issued by a write operation; conditional writes record
the `If-Match` header value they carried. -/
inductive TaskReq where
  | getTask
  | lookupUser (name : String)
  | patchTask (ifMatch : String) (payload : UpdatePayload)
  | deleteTask (ifMatch : String)
deriving Repr, DecidableEq

/-- Is this request a conditional write (PATCH or DELETE)? -/
def TaskReq.isCondWrite : TaskReq → Bool
  | .patchTask _ _ => true
  | .deleteTask _ => true
  | _ => false

/-- The `If-Match` header of a conditional write, if any. -/
def TaskReq.ifMatchOf : TaskReq → Option String
  | .patchTask e _ => some e
  | .deleteTask e => some e
  | _ => none

/-- Result dictionary of a write operation. -/
structure WriteResult where
  success : Bool
  error : Option String := none
  task_id : Option String := none
  updated_fields : Option (List String) := none
deriving Repr, DecidableEq

/-- The `{success: false, error: "HTTP error: ..."}` value produced by the
`except HTTPError` handlers; the Python rendering of the exception text is
abstracted to the status code. -/
def httpFailure (status : Nat) : WriteResult :=
  { success := false, error := some ("HTTP error: status " ++ toString status) }

/-- The effective GET response of a write operation: the first response, or
the second when the first was a 401 (after re-authentication). -/
def effectiveGet (env : TaskEnv) : HttpResp × List TaskReq :=
  if env.getResp1.status == 401 then (env.getResp2, [.getTask, .getTask])
  else (env.getResp1, [.getTask])

/-- The ETag extracted from a GET response:
`response.headers.get("ETag") or body.get("@odata.etag")`, then Python
truthiness (`if not etag`). -/
def extractEtag (r : HttpResp) : Option String :=
  strTruthy (pyOrStr r.etagHeader r.body.odataEtag)

/-- `PlannerAPI.delete_task` (planner_api.py lines 541-583). -/
def delete_task (env : TaskEnv) (_task_id : String) :
    WriteResult × List TaskReq :=
  let (getResp, lg) := effectiveGet env
  if raisesForStatus getResp.status then (httpFailure getResp.status, lg)
  else
    match extractEtag getResp with
    | none => ({ success := false, error := some "Task ETag missing; cannot delete" }, lg)
    | some etag =>
      let (delResp, ld) :=
        if env.deleteResp1.status == 401 then
          (env.deleteResp2, [TaskReq.deleteTask etag, TaskReq.deleteTask etag])
        else (env.deleteResp1, [TaskReq.deleteTask etag])
      if raisesForStatus delResp.status then (httpFailure delResp.status, lg ++ ld)
      else ({ success := true }, lg ++ ld)

/-- `PlannerAPI.update_task` (planner_api.py lines 585-726). -/
def update_task (env : TaskEnv) (task_id : String)
    (title due_date : Option String) (assignees : Option (List String))
    (percent_complete : Option Int) (completed : Option Bool)
    (bucket_id : Option String) : WriteResult × List TaskReq :=
  if title.isNone && due_date.isNone && assignees.isNone &&
      percent_complete.isNone && completed.isNone && bucket_id.isNone then
    ({ success := false, error := some "No update fields were provided" }, [])
  else
    let (getResp, lg) := effectiveGet env
    if raisesForStatus getResp.status then (httpFailure getResp.status, lg)
    else
      match extractEtag getResp with
      | none =>
        ({ success := false, error := some "Task ETag missing; cannot update" }, lg)
      | some etag =>
        let payload := buildUpdatePayload env.resolveUser title due_date
          assignees percent_complete completed bucket_id
          (getResp.body.assignments.map (·.1))
        let lu := (assignees.getD []).map TaskReq.lookupUser
        if payload.isEmpty then
          ({ success := false, error := some "No valid fields to update" }, lg ++ lu)
        else
          let (patchResp, lp) :=
            if env.patchResp1.status == 401 then
              (env.patchResp2, [TaskReq.patchTask etag payload, TaskReq.patchTask etag payload])
            else (env.patchResp1, [TaskReq.patchTask etag payload])
          if raisesForStatus patchResp.status then
            (httpFailure patchResp.status, lg ++ lu ++ lp)
          else
            ({ success := true, task_id := some task_id,
               updated_fields := some payload.keyList }, lg ++ lu ++ lp)

/-! ## Listing and resolver paths

`get_plan_tasks`, `get_plan_buckets` and `resolve_bucket_id` go through
`_make_request`; we model each endpoint by the outcome of that call (either
the `value` list of the parsed response, or the raised exception), and thread
through each function the list of Graph requests it issued. -/

/-- A Python exception as raised out of `_make_request`: an
`requests.exceptions.HTTPError` (which, being produced by
`raise_for_status`, always carries a response with status and text) or any
other exception. -/
inductive PyErr where
  | http (status : Nat) (body : String)
  | other (msg : String)
deriving Repr, DecidableEq

/-- `str(err)` for a caught exception (rendering abstracted). -/
def PyErr.msg : PyErr → String
  | .http status _ => "HTTP status " ++ toString status
  | .other m => m

/-- A group object from `GET groups` (the fields the code reads). -/
structure Group where
  id : Option String := none
  displayName : Option String := none
deriving Repr, DecidableEq

/-- A plan object from `GET groups/{gid}/planner/plans`; `group_name` is the
key `list_all_plans` adds while tagging each plan with its group. -/
structure Plan where
  id : Option String := none
  title : Option String := none
  group_name : Option String := none
deriving Repr, DecidableEq

/-- A raw task object from `GET planner/plans/{pid}/tasks` (the fields the
code reads); each assignment key is paired with the truthiness of its
value. -/
structure TaskJson where
  id : Option String := none
  title : Option String := none
  percentComplete : Option Int := none
  priority : Option Int := none
  dueDateTime : Option String := none
  createdDateTime : Option String := none
  bucketId : Option String := none
  assignments : List (String × Bool) := []
deriving Repr, DecidableEq

/-- A bucket object from `GET planner/plans/{pid}/buckets`. -/
structure BucketJson where
  id : Option String := none
  name : Option String := none
  planId : Option String := none
  orderHint : Option String := none
deriving Repr, DecidableEq

/-- A user object from `GET users/{uid}`. -/
structure UserJson where
  displayName : Option String := none
deriving Repr, DecidableEq

/-- One Graph request issued along the listing path. -/
inductive Req where
  | getGroups
  | getPlans (groupId : Option String)
  | getTasks (planId : Option String)
  | getBuckets (planId : Option String)
  | getUser (userId : String)
deriving Repr, DecidableEq

/-- The server side of the listing path: for each endpoint, the outcome of
`_make_request` — `.ok` carries the `value` list of the parsed response
(`response.get("value", [])`), `.error` the raised exception. -/
structure GraphEnv where
  groups : Except PyErr (List Group) := .ok []
  plansOf : Option String → Except PyErr (List Plan) := fun _ => .ok []
  tasksOf : Option String → Except PyErr (List TaskJson) := fun _ => .ok []
  bucketsOf : Option String → Except PyErr (List BucketJson) := fun _ => .ok []
  userOf : String → Except PyErr UserJson := fun _ => .error (.other "absent")

/-- `PlannerAPI.get_user_display_name` (planner_api.py lines 111-118):
returns `displayName` with the user ID itself as fallback, catching every
exception. -/
def get_user_display_name (env : GraphEnv) (user_id : String) :
    String × List Req :=
  (match env.userOf user_id with
   | .ok u => u.displayName.getD user_id
   | .error _ => user_id,
   [.getUser user_id])

/-- `PlannerAPI.list_all_groups` (planner_api.py lines 188-211): every
exception is caught (logged) and degrades to `[]`. -/
def list_all_groups (env : GraphEnv) : List Group × List Req :=
  (match env.groups with
   | .ok gs => gs
   | .error _ => [],
   [.getGroups])

/-- `PlannerAPI.list_all_plans` (planner_api.py lines 213-240): for every
group, list its plans and tag each with the group's display name; per-group
exceptions are caught (403 logged specially) and that group is skipped. -/
def list_all_plans (env : GraphEnv) : List Plan × List Req :=
  let (groups, lg) := list_all_groups env
  groups.foldl
    (fun (acc : List Plan × List Req) g =>
      match env.plansOf g.id with
      | .ok plans =>
        (acc.1 ++ plans.map (fun p => { p with group_name := g.displayName }),
         acc.2 ++ [.getPlans g.id])
      | .error _ => (acc.1, acc.2 ++ [.getPlans g.id]))
    ([], lg)

/-- `PlannerAPI.get_plan_by_name` (planner_api.py lines 242-269): first plan
whose `title` (default `""`) equals `plan_name`, else `None`.  The function's
`except` clauses re-raise, but nothing in its body can raise in this model:
`list_all_plans` catches every exception of its own. -/
def get_plan_by_name (env : GraphEnv) (plan_name : String) :
    Option Plan × List Req :=
  let (all_plans, l) := list_all_plans env
  (all_plans.find? (fun p => p.title.getD "" = plan_name), l)

/-- One entry of the `open_tasks` list built by `get_plan_tasks`
(planner_api.py lines 305-314). -/
structure OpenTask where
  id : Option String := none
  title : Option String := none
  percentComplete : Int := 0
  priority : Int := 5
  dueDateTime : Option String := none
  createdDateTime : Option String := none
  bucketId : Option String := none
  assignees : List String := []
deriving Repr, DecidableEq

/-- The snapshot dictionary returned by `get_plan_tasks`. -/
structure Snapshot where
  plan_name : String
  plan_id : Option String := none
  open_tasks : List OpenTask := []
  total_open : Nat := 0
  error : Option String := none
deriving Repr, DecidableEq

/-- One iteration of the `for user_id in assignments` loop (planner_api.py
lines 300-303): assignments with a truthy value get their user ID resolved
to a display name. -/
def assigneeStep (env : GraphEnv) (acc : List String × List Req)
    (a : String × Bool) : List String × List Req :=
  if a.2 then
    let (display_name, lu) := get_user_display_name env a.1
    (acc.1 ++ [display_name], acc.2 ++ lu)
  else acc

/-- The inner loop of `get_plan_tasks` over one task's assignments
(planner_api.py lines 298-303): resolve a display name for every assignment
whose value is truthy. -/
def collectAssignees (env : GraphEnv) (assignments : List (String × Bool)) :
    List String × List Req :=
  assignments.foldl (assigneeStep env) ([], [])

/-- The `open_tasks` entry built for one raw task (planner_api.py lines
305-314). -/
def mkOpenTask (t : TaskJson) (assignees : List String) : OpenTask :=
  { id := t.id
    title := t.title
    percentComplete := t.percentComplete.getD 0
    priority := t.priority.getD 5
    dueDateTime := t.dueDateTime
    createdDateTime := t.createdDateTime
    bucketId := t.bucketId
    assignees := assignees }

/-- One iteration of the `for task in all_tasks` loop (planner_api.py lines
293-314): tasks with `percentComplete` (default 0) < 100 are enriched with
resolved assignees and appended. -/
def openTaskStep (env : GraphEnv) (acc : List OpenTask × List Req)
    (task : TaskJson) : List OpenTask × List Req :=
  if task.percentComplete.getD 0 < 100 then
    let (assignees, la) := collectAssignees env task.assignments
    (acc.1 ++ [mkOpenTask task assignees], acc.2 ++ la)
  else acc

/-- The filter/enrich loop of `get_plan_tasks` (planner_api.py lines
292-314): keep tasks with `percentComplete` (default 0) < 100, enriched with
resolved assignee display names. -/
def collectOpenTasks (env : GraphEnv) (all_tasks : List TaskJson) :
    List OpenTask × List Req :=
  all_tasks.foldl (openTaskStep env) ([], [])

/-- `PlannerAPI.get_plan_tasks` (planner_api.py lines 271-331). -/
def get_plan_tasks (env : GraphEnv) (plan_name : String) :
    Snapshot × List Req :=
  let (plan, l1) := get_plan_by_name env plan_name
  match plan with
  | none =>
    ({ plan_name := plan_name, plan_id := none, open_tasks := [],
       total_open := 0,
       error := some ("Plan " ++ plan_name ++ " not found") }, l1)
  | some plan =>
    let plan_id := plan.id
    match env.tasksOf plan_id with
    | .error err =>
      ({ plan_name := plan_name, plan_id := plan_id, open_tasks := [],
         total_open := 0, error := some err.msg },
       l1 ++ [.getTasks plan_id])
    | .ok all_tasks =>
      let (open_tasks, l2) := collectOpenTasks env all_tasks
      ({ plan_name := plan_name, plan_id := plan_id,
         open_tasks := open_tasks, total_open := open_tasks.length,
         error := none },
       l1 ++ [.getTasks plan_id] ++ l2)

/-- Result dictionary of `get_plan_buckets` and `resolve_bucket_id`; the two
Python functions return dictionaries of overlapping shapes, modelled by one
structure whose `none` fields are absent keys. -/
structure BucketsOut where
  success : Bool
  plan_name : String
  plan_id : Option String := none
  buckets : Option (List BucketJson) := none
  bucket_id : Option String := none
  bucket_name : Option String := none
  error : Option String := none
  available_buckets : Option (List (Option String × Option String)) := none
deriving Repr, DecidableEq

/-- `PlannerAPI.get_plan_buckets` (planner_api.py lines 333-376); the list
comprehension re-projects each bucket onto id/name/planId/orderHint, which
are exactly the fields of `BucketJson`. -/
def get_plan_buckets (env : GraphEnv) (plan_name : String) :
    BucketsOut × List Req :=
  let (plan, l1) := get_plan_by_name env plan_name
  match plan with
  | none =>
    ({ success := false, plan_name := plan_name, plan_id := none,
       buckets := some [],
       error := some ("Plan " ++ plan_name ++ " not found") }, l1)
  | some plan =>
    let plan_id := plan.id
    match env.bucketsOf plan_id with
    | .ok bs =>
      ({ success := true, plan_name := plan_name, plan_id := plan_id,
         buckets := some bs }, l1 ++ [.getBuckets plan_id])
    | .error err =>
      ({ success := false, plan_name := plan_name, plan_id := plan_id,
         buckets := some [], error := some err.msg },
       l1 ++ [.getBuckets plan_id])

/-- The per-bucket test of `resolve_bucket_id`'s loop (planner_api.py lines
393-413): the stripped bucket ID, when nonempty, is compared lowercased to
the target first; then the stripped bucket name likewise.  Both branches
return the same result value, so a bucket matches iff either test hits. -/
def bucketMatches (target_lower : String) (b : BucketJson) : Bool :=
  let bucket_id := pyStrip (b.id.getD "")
  let bucket_name := pyStrip (b.name.getD "")
  (!bucket_id.isEmpty && pyLower bucket_id == target_lower) ||
    (!bucket_name.isEmpty && pyLower bucket_name == target_lower)

/-- `PlannerAPI.resolve_bucket_id` (planner_api.py lines 378-424). -/
def resolve_bucket_id (env : GraphEnv) (plan_name : String)
    (bucket_value : Option String) : BucketsOut × List Req :=
  let cleaned_value := pyStrip (bucket_value.getD "")
  if cleaned_value.isEmpty then
    ({ success := false, plan_name := plan_name,
       error := some "Bucket value is empty" }, [])
  else
    let (buckets_result, l1) := get_plan_buckets env plan_name
    if !buckets_result.success then (buckets_result, l1)
    else
      let target_lower := pyLower cleaned_value
      match (buckets_result.buckets.getD []).find? (bucketMatches target_lower) with
      | some b =>
        ({ success := true, plan_name := plan_name,
           plan_id := buckets_result.plan_id,
           bucket_id := some (pyStrip (b.id.getD "")),
           bucket_name := some (pyStrip (b.name.getD "")) }, l1)
      | none =>
        ({ success := false, plan_name := plan_name,
           plan_id := buckets_result.plan_id,
           error := some ("Bucket " ++ cleaned_value ++ " not found"),
           available_buckets :=
             some ((buckets_result.buckets.getD []).map (fun b => (b.id, b.name))) },
         l1)

/-! ## Todo adapter priority maps (todo.py lines 190-206) -/

/-- The host's todo priority enum (`homeassistant.components.todo
.TodoItemPriority`), as referenced by the adapter. -/
inductive TodoItemPriority where
  | high
  | normal
  | low
deriving Repr, DecidableEq

/-- `PlannerTodoList._priority_from_planner` (todo.py lines 190-198). -/
def priority_from_planner (value : Option Int) : TodoItemPriority :=
  match value with
  | none => .normal
  | some v =>
    if v ≤ 3 then .high
    else if v ≤ 6 then .normal
    else .low

/-- `PlannerTodoList._priority_to_planner` (todo.py lines 200-206); the
Python parameter is `TodoItemPriority | None`. -/
def priority_to_planner (priority : Option TodoItemPriority) : Int :=
  if priority = some .high then 1
  else if priority = some .low then 9
  else 5

end Planner

/-! ## Theorems -/

open Planner

/-- Dict lookup on a cons cell. -/
theorem dictGet_cons {α : Type} (ka : String) (va : α)
    (rest : List (String × α)) (k' : String) :
    dictGet ((ka, va) :: rest) k' =
      if ka = k' then some va else dictGet rest k' := by
  simp only [dictGet, List.find?]
  by_cases h : ka = k' <;> simp [h]

/-- Looking a key up after a dict insertion: the inserted value for that
key, the old dictionary otherwise. -/
theorem dictGet_dictInsert {α : Type} (d : List (String × α)) (k k' : String)
    (v : α) :
    dictGet (dictInsert d k v) k' = if k' = k then some v else dictGet d k' := by
  induction d with
  | nil =>
    rw [show dictInsert ([] : List (String × α)) k v = [(k, v)] from rfl,
      dictGet_cons]
    by_cases h : k = k'
    · subst h
      simp
    · have h' : ¬ k' = k := fun hh => h hh.symm
      simp [h, h']
  | cons a rest ih =>
    rcases a with ⟨ka, va⟩
    by_cases h1 : ka = k
    · subst h1
      rw [show dictInsert ((ka, va) :: rest) ka v = (ka, v) :: rest from by
        simp [dictInsert], dictGet_cons, dictGet_cons]
      by_cases h2 : ka = k'
      · subst h2
        simp
      · have h2' : ¬ k' = ka := fun hh => h2 hh.symm
        simp [h2, h2']
    · rw [show dictInsert ((ka, va) :: rest) k v =
          (ka, va) :: dictInsert rest k v from by simp [dictInsert, h1],
        dictGet_cons, dictGet_cons, ih]
      by_cases h2 : ka = k'
      · subst h2
        have h2' : ¬ ka = k := h1
        simp [h2']
      · simp [h2]

/-- After the assignee loop, `resolved_ids` is the requested names'
successfully resolved user IDs, in order. -/
theorem addAssignee_resolved (r : String → Option String) :
    ∀ (names : List String) (d : List (String × Option PlannerAssignment))
      (rs : List String),
      (names.foldl (addAssigneeStep r) (d, rs)).2 = rs ++ names.filterMap r := by
  intro names
  induction names with
  | nil => intro d rs; simp
  | cons name rest ih =>
    intro d rs
    cases h : r name <;>
      simp [addAssigneeStep, h, ih]

/-- Lookup in the dictionary built by the assignee loop. -/
theorem addAssignee_get (r : String → Option String) :
    ∀ (names : List String) (d : List (String × Option PlannerAssignment))
      (rs : List String) (k : String),
      dictGet (names.foldl (addAssigneeStep r) (d, rs)).1 k =
        if k ∈ names.filterMap r then some (some {}) else dictGet d k := by
  intro names
  induction names with
  | nil => intro d rs k; simp
  | cons name rest ih =>
    intro d rs k
    cases h : r name with
    | none => simp [addAssigneeStep, h, ih]
    | some uid =>
      simp only [List.foldl_cons, addAssigneeStep, h]
      rw [ih, dictGet_dictInsert]
      by_cases hk1 : k ∈ rest.filterMap r <;> by_cases hk2 : k = uid <;>
        simp [List.filterMap_cons, h, hk1, hk2]

/-- Lookup after the tombstoning loop. -/
theorem tombstone_get (resolved : List String) :
    ∀ (cs : List String) (d : List (String × Option PlannerAssignment))
      (k : String),
      dictGet (cs.foldl (tombstoneStep resolved) d) k =
        if k ∈ cs ∧ k ∉ resolved then some none else dictGet d k := by
  intro cs
  induction cs with
  | nil => intro d k; simp
  | cons c rest ih =>
    intro d k
    by_cases hc : c ∈ resolved
    · simp only [List.foldl_cons, tombstoneStep, if_pos hc]
      rw [ih]
      by_cases hk : k = c
      · subst hk
        simp [hc]
      · simp [List.mem_cons, hk]
    · simp only [List.foldl_cons, tombstoneStep, if_neg hc]
      rw [ih, dictGet_dictInsert]
      by_cases hk : k = c
      · subst hk
        simp [hc]
      · simp [List.mem_cons, hk]

/-- Closed form of the assignments dictionary of `update_task`'s patch:
resolved IDs map to a fresh assignment, unresolved current IDs map to the
`null` tombstone, everything else is absent. -/
theorem buildNewAssignments_get (r : String → Option String)
    (names currentIds : List String) (k : String) :
    dictGet (buildNewAssignments r names currentIds).1 k =
      if k ∈ names.filterMap r then some (some {})
      else if k ∈ currentIds then some none
      else none := by
  unfold buildNewAssignments
  rw [tombstone_get, addAssignee_get, addAssignee_resolved]
  simp only [List.nil_append, dictGet]
  by_cases h1 : k ∈ names.filterMap r <;> by_cases h2 : k ∈ currentIds <;>
    simp [h1, h2, List.find?]

/-- `resolved_ids` of `buildNewAssignments`. -/
theorem buildNewAssignments_resolved (r : String → Option String)
    (names currentIds : List String) :
    (buildNewAssignments r names currentIds).2 = names.filterMap r := by
  unfold buildNewAssignments
  rw [addAssignee_resolved]
  simp

/-- The assignment loop appends one resolved display name and one user
lookup per truthy assignment. -/
theorem assignee_fold (env : GraphEnv) :
    ∀ (asg : List (String × Bool)) (acc : List String × List Req),
      asg.foldl (assigneeStep env) acc =
        (acc.1 ++ (asg.filter (·.2)).map
            (fun a => (get_user_display_name env a.1).1),
         acc.2 ++ (asg.filter (·.2)).map (fun a => Req.getUser a.1)) := by
  intro asg
  induction asg with
  | nil => intro acc; simp
  | cons a rest ih =>
    intro acc
    by_cases h : a.2 <;>
      simp [assigneeStep, h, get_user_display_name, ih, List.filter_cons]

/-- Closed form of `collectAssignees`. -/
theorem collectAssignees_eq (env : GraphEnv) (asg : List (String × Bool)) :
    collectAssignees env asg =
      ((asg.filter (·.2)).map (fun a => (get_user_display_name env a.1).1),
       (asg.filter (·.2)).map (fun a => Req.getUser a.1)) := by
  unfold collectAssignees
  rw [assignee_fold]
  simp

/-- The task loop keeps exactly the tasks with completion below 100,
enriched by the resolved assignees, and issues one user lookup per truthy
assignment of each kept task. -/
theorem openTask_fold (env : GraphEnv) :
    ∀ (ts : List TaskJson) (acc : List OpenTask × List Req),
      ts.foldl (openTaskStep env) acc =
        (acc.1 ++ (ts.filter
              (fun t => decide (t.percentComplete.getD 0 < 100))).map
            (fun t => mkOpenTask t ((t.assignments.filter (·.2)).map
              (fun a => (get_user_display_name env a.1).1))),
         acc.2 ++ (ts.filter
              (fun t => decide (t.percentComplete.getD 0 < 100))).flatMap
            (fun t => (t.assignments.filter (·.2)).map
              (fun a => Req.getUser a.1))) := by
  intro ts
  induction ts with
  | nil => intro acc; simp
  | cons task rest ih =>
    intro acc
    by_cases h : task.percentComplete.getD 0 < 100 <;>
      simp [openTaskStep, h, collectAssignees_eq, ih, List.filter_cons]

/-- C1: when the plan resolves and the task listing succeeds,
`get_plan_tasks` returns as `open_tasks` exactly the tasks whose
`percentComplete` (default 0) is strictly below 100 — in listing order, each
enriched with the display names resolved from its non-null assignments —
with `total_open` the length of that list, and it performs one user lookup
per non-null assignment of each included task. -/
theorem get_plan_tasks_open (env : GraphEnv) (plan_name : String)
    (plan : Plan) (ts : List TaskJson)
    (hp : (get_plan_by_name env plan_name).1 = some plan)
    (ht : env.tasksOf plan.id = .ok ts) :
    (get_plan_tasks env plan_name).1.open_tasks =
      (ts.filter (fun t => decide (t.percentComplete.getD 0 < 100))).map
        (fun t => mkOpenTask t ((t.assignments.filter (·.2)).map
          (fun a => (get_user_display_name env a.1).1))) ∧
    (get_plan_tasks env plan_name).1.total_open =
      (get_plan_tasks env plan_name).1.open_tasks.length ∧
    (get_plan_tasks env plan_name).1.error = none ∧
    (get_plan_tasks env plan_name).2 =
      (get_plan_by_name env plan_name).2 ++ [Req.getTasks plan.id] ++
        (ts.filter (fun t => decide (t.percentComplete.getD 0 < 100))).flatMap
          (fun t => (t.assignments.filter (·.2)).map
            (fun a => Req.getUser a.1)) := by
  unfold get_plan_tasks
  rcases hE : get_plan_by_name env plan_name with ⟨maybePlan, l1⟩
  rw [hE] at hp
  simp only at hp
  subst hp
  simp only [ht, collectOpenTasks, openTask_fold]
  simp

/-- Witness for C1: of two tasks, the completed one (100%) is dropped and
the open one (50%) is kept with its one non-null assignment resolved to
"Alice"; its null assignment triggers no lookup; `total_open` is 1. -/
theorem get_plan_tasks_open_witness :
    (get_plan_tasks
      { groups := .ok [{ id := some "g1" }],
        plansOf := fun _ => .ok [{ id := some "p1", title := some "Chores" }],
        tasksOf := fun _ => .ok
          [{ id := some "t1", title := some "Done task",
             percentComplete := some 100,
             assignments := [("u3", true)] },
           { id := some "t2", title := some "Open task",
             percentComplete := some 50,
             assignments := [("u1", true), ("u2", false)] }],
        userOf := fun uid =>
          if uid = "u1" then .ok { displayName := some "Alice" }
          else .error (.other "not found") } "Chores").1.open_tasks =
      [{ id := some "t2", title := some "Open task", percentComplete := 50,
         priority := 5, assignees := ["Alice"] }] ∧
    (get_plan_tasks
      { groups := .ok [{ id := some "g1" }],
        plansOf := fun _ => .ok [{ id := some "p1", title := some "Chores" }],
        tasksOf := fun _ => .ok
          [{ id := some "t1", title := some "Done task",
             percentComplete := some 100,
             assignments := [("u3", true)] },
           { id := some "t2", title := some "Open task",
             percentComplete := some 50,
             assignments := [("u1", true), ("u2", false)] }],
        userOf := fun uid =>
          if uid = "u1" then .ok { displayName := some "Alice" }
          else .error (.other "not found") } "Chores").1.total_open = 1 ∧
    (get_plan_tasks
      { groups := .ok [{ id := some "g1" }],
        plansOf := fun _ => .ok [{ id := some "p1", title := some "Chores" }],
        tasksOf := fun _ => .ok
          [{ id := some "t1", title := some "Done task",
             percentComplete := some 100,
             assignments := [("u3", true)] },
           { id := some "t2", title := some "Open task",
             percentComplete := some 50,
             assignments := [("u1", true), ("u2", false)] }],
        userOf := fun uid =>
          if uid = "u1" then .ok { displayName := some "Alice" }
          else .error (.other "not found") } "Chores").2 =
      [Req.getGroups, Req.getPlans (some "g1"), Req.getTasks (some "p1"),
       Req.getUser "u1"] := by
  have h := get_plan_tasks_open
    { groups := .ok [{ id := some "g1" }],
      plansOf := fun _ => .ok [{ id := some "p1", title := some "Chores" }],
      tasksOf := fun _ => .ok
        [{ id := some "t1", title := some "Done task",
           percentComplete := some 100,
           assignments := [("u3", true)] },
         { id := some "t2", title := some "Open task",
           percentComplete := some 50,
           assignments := [("u1", true), ("u2", false)] }],
      userOf := fun uid =>
        if uid = "u1" then .ok { displayName := some "Alice" }
        else .error (.other "not found") } "Chores"
    { id := some "p1", title := some "Chores", group_name := none }
    [{ id := some "t1", title := some "Done task",
       percentComplete := some 100,
       assignments := [("u3", true)] },
     { id := some "t2", title := some "Open task",
       percentComplete := some 50,
       assignments := [("u1", true), ("u2", false)] }]
    (by decide) rfl
  refine ⟨?_, ?_, ?_⟩
  · rw [h.1]
    decide
  · rw [h.2.1, h.1]
    decide
  · rw [h.2.2.2]
    decide

/-- The GET phase of a write operation issues only task reads. -/
theorem effectiveGet_log_mem (env : TaskEnv) :
    ∀ x ∈ (effectiveGet env).2, x = TaskReq.getTask := by
  unfold effectiveGet
  split <;> simp

/-- The GET phase issues one read, or two after a 401. -/
theorem effectiveGet_log_shape (env : TaskEnv) :
    (effectiveGet env).2 = [TaskReq.getTask] ∨
      (effectiveGet env).2 = [TaskReq.getTask, TaskReq.getTask] := by
  unfold effectiveGet
  split <;> simp

/-- C2: both write operations read the task first (their request log starts
with the GET); when the read succeeds but yields no ETag (neither header nor
body), they return the explicit "ETag missing" failure and issue no
conditional write; and every conditional write they do issue carries the
ETag extracted from the read response in its `If-Match` header. -/
theorem etag_guarded_writes (env : TaskEnv) (task_id : String)
    (t d : Option String) (a : Option (List String)) (pc : Option Int)
    (c : Option Bool) (b : Option String) :
    ((delete_task env task_id).2.head? = some TaskReq.getTask) ∧
    (raisesForStatus (effectiveGet env).1.status = false →
      extractEtag (effectiveGet env).1 = none →
      (delete_task env task_id).1 =
        { success := false,
          error := some "Task ETag missing; cannot delete" } ∧
      ∀ r ∈ (delete_task env task_id).2, r.isCondWrite = false) ∧
    (∀ r ∈ (delete_task env task_id).2, ∀ e, r.ifMatchOf = some e →
      extractEtag (effectiveGet env).1 = some e) ∧
    ((update_task env task_id t d a pc c b).2 ≠ [] →
      (update_task env task_id t d a pc c b).2.head? = some TaskReq.getTask) ∧
    ((t.isNone && d.isNone && a.isNone && pc.isNone && c.isNone &&
        b.isNone) = false →
      raisesForStatus (effectiveGet env).1.status = false →
      extractEtag (effectiveGet env).1 = none →
      (update_task env task_id t d a pc c b).1 =
        { success := false,
          error := some "Task ETag missing; cannot update" } ∧
      ∀ r ∈ (update_task env task_id t d a pc c b).2,
        r.isCondWrite = false) ∧
    (∀ r ∈ (update_task env task_id t d a pc c b).2, ∀ e,
      r.ifMatchOf = some e → extractEtag (effectiveGet env).1 = some e) := by
  have hmem := effectiveGet_log_mem env
  have hshape := effectiveGet_log_shape env
  rcases hE : effectiveGet env with ⟨gr, lg⟩
  rw [hE] at hmem hshape
  simp only at hmem hshape
  have hhead : lg.head? = some TaskReq.getTask := by
    rcases hshape with h | h <;> subst h <;> rfl
  refine ⟨?_, ?_, ?_, ?_, ?_, ?_⟩
  · unfold delete_task
    rw [hE]
    simp only
    split
    · simpa using hhead
    · split
      · simpa using hhead
      · split <;> split <;> rcases hshape with h | h <;> subst h <;> rfl
  · intro h1 h2
    unfold delete_task
    rw [hE]
    simp only [h1, h2, Bool.false_eq_true, if_false]
    refine ⟨by trivial, ?_⟩
    intro r hr
    rw [hmem r hr]
    rfl
  · unfold delete_task
    rw [hE]
    simp only
    split
    · intro r hr e he
      rw [hmem r hr] at he
      cases he
    · split
      · intro r hr e he
        rw [hmem r hr] at he
        cases he
      · rename_i etag heq
        split <;> split <;>
          · intro r hr e he
            simp only [List.mem_append, List.mem_cons,
              List.not_mem_nil, or_false, or_self] at hr
            rcases hr with hr | hr
            · rw [hmem r hr] at he
              cases he
            · subst hr
              simp only [TaskReq.ifMatchOf, Option.some.injEq] at he
              rw [heq, he]
  · intro hne
    unfold update_task at hne ⊢
    rw [hE] at hne ⊢
    by_cases hall : (t.isNone && d.isNone && a.isNone && pc.isNone &&
        c.isNone && b.isNone) = true
    · rw [if_pos hall] at hne
      exact absurd rfl hne
    · rw [if_neg hall] at hne ⊢
      simp only at hne ⊢
      split
      · simpa using hhead
      · split
        · simpa using hhead
        · split
          · rcases hshape with h | h <;> subst h <;> rfl
          · split <;> split <;> rcases hshape with h | h <;> subst h <;> rfl
  · intro hall h1 h2
    unfold update_task
    rw [hE]
    simp only [hall, Bool.false_eq_true, if_false, h1, h2]
    refine ⟨by trivial, ?_⟩
    intro r hr
    rw [hmem r hr]
    rfl
  · unfold update_task
    by_cases hall : (t.isNone && d.isNone && a.isNone && pc.isNone &&
        c.isNone && b.isNone) = true
    · rw [if_pos hall]
      intro r hr
      simp at hr
    · rw [if_neg hall, hE]
      simp only
      split
      · intro r hr e he
        rw [hmem r hr] at he
        cases he
      · split
        · intro r hr e he
          rw [hmem r hr] at he
          cases he
        · rename_i etag heq
          split
          · intro r hr e he
            simp only [List.mem_append, List.mem_map] at hr
            rcases hr with hr | ⟨x, _, hx⟩
            · rw [hmem r hr] at he
              cases he
            · subst hx
              cases he
          · split <;> split <;>
              · intro r hr e he
                simp only [List.append_assoc, List.mem_append,
                  List.mem_map, List.mem_cons, List.not_mem_nil,
                  or_false, or_self] at hr
                rcases hr with hr | ⟨x, _, hx⟩ | hr
                · rw [hmem r hr] at he
                  cases he
                · subst hx
                  cases he
                · subst hr
                  simp only [TaskReq.ifMatchOf, Option.some.injEq] at he
                  rw [heq, he]

/-- Witness for C2: a successful read with no ETag anywhere makes both
`delete_task` and `update_task` fail with the "ETag missing" error after
issuing only the read; and on a read carrying an ETag, the DELETE issued
carries that ETag in `If-Match`. -/
theorem etag_guarded_writes_witness :
    (delete_task { getResp1 := { status := 200 } } "t9").1 =
      { success := false, error := some "Task ETag missing; cannot delete" } ∧
    (∀ r ∈ (delete_task { getResp1 := { status := 200 } } "t9").2,
      r.isCondWrite = false) ∧
    (update_task { getResp1 := { status := 200 } } "t9" (some "New title")
        none none none none none).1 =
      { success := false, error := some "Task ETag missing; cannot update" } ∧
    (∀ r ∈ (update_task { getResp1 := { status := 200 } } "t9"
        (some "New title") none none none none none).2,
      r.isCondWrite = false) ∧
    extractEtag (effectiveGet
      { getResp1 := { status := 200, etagHeader := some "W/abc" } }).1 =
      some "W/abc" := by
  have h1 := (etag_guarded_writes { getResp1 := { status := 200 } } "t9"
    (some "New title") none none none none none).2.1 rfl rfl
  have h2 := (etag_guarded_writes { getResp1 := { status := 200 } } "t9"
    (some "New title") none none none none none).2.2.2.2.1 rfl rfl rfl
  have h3 := (etag_guarded_writes
    { getResp1 := { status := 200, etagHeader := some "W/abc" } } "t9"
    none none none none none none).2.2.1
    (TaskReq.deleteTask "W/abc") (by decide) "W/abc" rfl
  exact ⟨h1.1, h1.2, h2.1, h2.2, h3⟩

/-- C3: when `assignees` is supplied to `update_task`, it is the
authoritative full set: in the patch's assignments map every currently
assigned ID not resolved from the new list is tombstoned (`null`), every
resolved name's ID gets an assignment entry, unresolved names contribute
nothing (keys come only from resolved IDs or current IDs); and every PATCH
issued by `update_task` carries exactly the payload built this way from the
read task's current assignment keys. -/
theorem update_assignments_authoritative
    (env : TaskEnv) (task_id : String) (t d : Option String)
    (names : List String) (pc : Option Int) (c : Option Bool)
    (b : Option String) (currentIds : List String) :
    (∃ A, (buildUpdatePayload env.resolveUser t d (some names) pc c b
        currentIds).assignments = some A ∧
      (∀ cid, cid ∈ currentIds → cid ∉ names.filterMap env.resolveUser →
        dictGet A cid = some none) ∧
      (∀ name uid, name ∈ names → env.resolveUser name = some uid →
        dictGet A uid = some (some {})) ∧
      (∀ k v, dictGet A k = some v →
        k ∈ names.filterMap env.resolveUser ∨ k ∈ currentIds)) ∧
    (∀ req ∈ (update_task env task_id t d (some names) pc c b).2,
      ∀ e p, req = .patchTask e p →
        p = buildUpdatePayload env.resolveUser t d (some names) pc c b
          ((effectiveGet env).1.body.assignments.map (·.1))) := by
  constructor
  · refine ⟨(buildNewAssignments env.resolveUser names currentIds).1, rfl,
      ?_, ?_, ?_⟩
    · intro cid h1 h2
      rw [buildNewAssignments_get]
      simp [h1, h2]
    · intro name uid h1 h2
      rw [buildNewAssignments_get]
      simp [List.mem_filterMap.mpr ⟨name, h1, h2⟩]
    · intro k v h
      rw [buildNewAssignments_get] at h
      by_cases h1 : k ∈ names.filterMap env.resolveUser
      · exact .inl h1
      · by_cases h2 : k ∈ currentIds
        · exact .inr h2
        · simp [h1, h2] at h
  · intro req hreq e p hp
    subst hp
    have hlg := effectiveGet_log_mem env
    unfold update_task at hreq
    rcases hE : effectiveGet env with ⟨gr, lg⟩
    rw [hE] at hreq hlg
    simp only at hreq hlg ⊢
    simp only [Option.isNone_some, Bool.and_false, Bool.false_and,
      Bool.and_self, Bool.false_eq_true, if_false, Option.getD_some] at hreq
    split at hreq
    · -- GET failed with raise_for_status
      exact absurd (hlg _ hreq) (by simp)
    · split at hreq
      · -- ETag missing
        exact absurd (hlg _ hreq) (by simp)
      · split at hreq
        · -- payload empty
          rw [List.mem_append] at hreq
          rcases hreq with hreq | hreq
          · exact absurd (hlg _ hreq) (by simp)
          · simp only [List.mem_map] at hreq
            rcases hreq with ⟨x, _, hx⟩
            cases hx
        · split at hreq
          all_goals split at hreq
          all_goals
            simp only [List.append_assoc, List.mem_append, List.mem_map,
              List.mem_singleton, List.mem_cons, List.not_mem_nil,
              or_false, or_self] at hreq
          all_goals
            rcases hreq with hreq | ⟨x, _, hx⟩ | hreq
            · exact absurd (hlg _ hreq) (by simp)
            · cases hx
            · cases hreq
              rfl

/-- Witness for C3 (the spec's concrete scenario): with
`assignees=["Alice"]`, the task currently assigned to UserX and UserY, and
Alice resolving to UserZ, the patch tombstones UserX and UserY, adds UserZ,
and the PATCH issued by `update_task` carries exactly that payload. -/
theorem update_assignments_authoritative_witness :
    (∃ A, (buildUpdatePayload
        (fun n => if n = "Alice" then some "UserZ" else none)
        none none (some ["Alice"]) none none none
        ["UserX", "UserY"]).assignments = some A ∧
      dictGet A "UserX" = some none ∧
      dictGet A "UserY" = some none ∧
      dictGet A "UserZ" = some (some {})) ∧
    ({ assignments := some
        [("UserZ", some {}), ("UserX", none), ("UserY", none)] } :
          UpdatePayload) =
      buildUpdatePayload
        (fun n => if n = "Alice" then some "UserZ" else none)
        none none (some ["Alice"]) none none none
        ((effectiveGet
          { getResp1 :=
              { status := 200, etagHeader := some "E",
                body := { assignments := [("UserX", true), ("UserY", true)] } },
            resolveUser :=
              fun n => if n = "Alice" then some "UserZ" else none
            }).1.body.assignments.map (·.1)) := by
  constructor
  · obtain ⟨A, hA, tomb, resolved, _⟩ :=
      (update_assignments_authoritative
        { getResp1 := { status := 200 },
          resolveUser := fun n => if n = "Alice" then some "UserZ" else none }
        "t1" none none ["Alice"] none none none ["UserX", "UserY"]).1
    exact ⟨A, hA, tomb "UserX" (by decide) (by decide),
      tomb "UserY" (by decide) (by decide),
      resolved "Alice" "UserZ" (by decide) (by decide)⟩
  · exact (update_assignments_authoritative
      { getResp1 :=
          { status := 200, etagHeader := some "E",
            body := { assignments := [("UserX", true), ("UserY", true)] } },
        resolveUser := fun n => if n = "Alice" then some "UserZ" else none }
      "t1" none none ["Alice"] none none none []).2
      (.patchTask "E"
        { assignments := some
            [("UserZ", some {}), ("UserX", none), ("UserY", none)] })
      (by decide) "E" _ rfl

/-- C4: in `update_task`'s patch, a supplied `percent_complete` is clamped to
[0,100] and takes precedence over `completed`; with only `completed`
supplied, `percentComplete` becomes 100 for `true` and 0 for `false`. -/
theorem update_percent_clamp_and_precedence
    (r : String → Option String) (t d : Option String)
    (a : Option (List String)) (pc : Option Int) (c : Option Bool)
    (b : Option String) (cur : List String) :
    (∀ p : Int, pc = some p →
      (buildUpdatePayload r t d a pc c b cur).percentComplete =
          some (max 0 (min 100 p)) ∧
        0 ≤ max 0 (min 100 p) ∧ max 0 (min 100 p) ≤ 100) ∧
    (pc = none → c = some true →
      (buildUpdatePayload r t d a pc c b cur).percentComplete = some 100) ∧
    (pc = none → c = some false →
      (buildUpdatePayload r t d a pc c b cur).percentComplete = some 0) := by
  refine ⟨?_, ?_, ?_⟩
  · intro p hp
    subst hp
    exact ⟨rfl, le_max_left 0 _, max_le (by norm_num) (min_le_left 100 p)⟩
  · intro hpc hc
    subst hpc; subst hc
    rfl
  · intro hpc hc
    subst hpc; subst hc
    rfl

/-- Witness for C4: 150 clamps to 100, -5 clamps to 0, `percent_complete`
overrides `completed`, and `completed` alone maps to 100/0. -/
theorem update_percent_clamp_witness :
    (buildUpdatePayload (fun _ => none) none none none (some 150) (some false)
        none []).percentComplete = some 100 ∧
    (buildUpdatePayload (fun _ => none) none none none (some (-5)) none
        none []).percentComplete = some 0 ∧
    (buildUpdatePayload (fun _ => none) none none none none (some true)
        none []).percentComplete = some 100 ∧
    (buildUpdatePayload (fun _ => none) none none none none (some false)
        none []).percentComplete = some 0 := by
  refine ⟨?_, ?_, ?_, ?_⟩
  · rw [((update_percent_clamp_and_precedence (fun _ => none) none none none
      (some 150) (some false) none []).1 150 rfl).1]
    norm_num
  · rw [((update_percent_clamp_and_precedence (fun _ => none) none none none
      (some (-5)) none none []).1 (-5) rfl).1]
    norm_num
  · exact (update_percent_clamp_and_precedence (fun _ => none) none none none
      none (some true) none []).2.1 rfl rfl
  · exact (update_percent_clamp_and_precedence (fun _ => none) none none none
      none (some false) none []).2.2 rfl rfl

/-- C5 counterexample: a 304 response is neither a 2xx nor a 401, yet
`_make_request` does not surface it as an error — `raise_for_status` only
raises for 400..599, so the 304 body is returned as a success.  This refutes
the claim that "every other non-2xx status is surfaced immediately as an
error". -/
theorem make_request_304_not_error :
    (¬ (200 ≤ 304 ∧ 304 < 300)) ∧ 304 ≠ 401 ∧
    make_request ⟨304, "not modified", "cached"⟩ ⟨304, "not modified", "cached"⟩ =
      (.ok "cached", 1, false) :=
  ⟨by decide, by decide, rfl⟩

/-- C5 (amended): a single 401 invalidates the token, re-authenticates and
retries exactly once, succeeding if the retry succeeds; a second consecutive
401 propagates as a failure with no further retry; every other 4xx/5xx
status is surfaced immediately as an error carrying the status code and
response body, without retry (statuses outside 400..599, e.g. 3xx, do not
raise and return the body as success). -/
theorem make_request_retry_policy (r1 r2 : SimpleResp) :
    (r1.status = 401 → raisesForStatus r2.status = false →
      make_request r1 r2 = (.ok r2.payload, 2, true)) ∧
    (r1.status = 401 → r2.status = 401 →
      make_request r1 r2 = (.httpError 401 r2.body, 2, true)) ∧
    (r1.status = 401 → raisesForStatus r2.status = true →
      make_request r1 r2 = (.httpError r2.status r2.body, 2, true)) ∧
    (r1.status ≠ 401 → raisesForStatus r1.status = true →
      make_request r1 r2 = (.httpError r1.status r1.body, 1, false)) ∧
    (r1.status ≠ 401 → raisesForStatus r1.status = false →
      make_request r1 r2 = (.ok r1.payload, 1, false)) := by
  refine ⟨?_, ?_, ?_, ?_, ?_⟩
  · intro h1 h2
    simp [make_request, make_request_once, h1, h2]
  · intro h1 h2
    simp [make_request, make_request_once, h1, h2, raisesForStatus]
  · intro h1 h2
    simp [make_request, make_request_once, h1, h2]
  · intro h1 h2
    simp [make_request, make_request_once, h1, h2]
  · intro h1 h2
    simp [make_request, make_request_once, h1, h2]

/-- Witness for C5 (amended): 401 then 200 succeeds after one retry with
re-authentication; two consecutive 401s propagate; a 500 is surfaced
immediately without retry. -/
theorem make_request_retry_policy_witness :
    make_request ⟨401, "unauthorized", "x"⟩ ⟨200, "good", "body"⟩ =
      (.ok "body", 2, true) ∧
    make_request ⟨401, "u1", "x"⟩ ⟨401, "u2", "y"⟩ =
      (.httpError 401 "u2", 2, true) ∧
    make_request ⟨500, "boom", "x"⟩ ⟨200, "good", "y"⟩ =
      (.httpError 500 "boom", 1, false) :=
  ⟨(make_request_retry_policy _ _).1 rfl (by decide),
   (make_request_retry_policy _ _).2.1 rfl rfl,
   (make_request_retry_policy _ _).2.2.2.1 (by decide) (by decide)⟩

/-- C7: with a non-empty (stripped) bucket value and a successful bucket
listing, `resolve_bucket_id` returns a success carrying the bucket ID of the
first bucket whose stripped, lowercased ID or name equals the lowercased
value (per bucket the ID is compared before the name; empty IDs/names never
match); when no bucket matches it returns a not-found failure enumerating
the available buckets' IDs and names. -/
theorem resolve_bucket_matching (env : GraphEnv) (plan_name : String)
    (bucket_value : Option String)
    (hv : (pyStrip (bucket_value.getD "")).isEmpty = false)
    (hs : (get_plan_buckets env plan_name).1.success = true) :
    (∀ b, ((get_plan_buckets env plan_name).1.buckets.getD []).find?
        (bucketMatches (pyLower (pyStrip (bucket_value.getD "")))) = some b →
      (resolve_bucket_id env plan_name bucket_value).1 =
        { success := true, plan_name := plan_name,
          plan_id := (get_plan_buckets env plan_name).1.plan_id,
          bucket_id := some (pyStrip (b.id.getD "")),
          bucket_name := some (pyStrip (b.name.getD "")) }) ∧
    (((get_plan_buckets env plan_name).1.buckets.getD []).find?
        (bucketMatches (pyLower (pyStrip (bucket_value.getD "")))) = none →
      (resolve_bucket_id env plan_name bucket_value).1 =
        { success := false, plan_name := plan_name,
          plan_id := (get_plan_buckets env plan_name).1.plan_id,
          error := some ("Bucket " ++ pyStrip (bucket_value.getD "")
            ++ " not found"),
          available_buckets :=
            some (((get_plan_buckets env plan_name).1.buckets.getD []).map
              (fun b => (b.id, b.name))) }) := by
  unfold resolve_bucket_id
  rcases hB : get_plan_buckets env plan_name with ⟨br, l1⟩
  rw [hB] at hs
  simp only at hs
  constructor
  · intro b h
    simp only at h
    simp [hv, hs, h]
  · intro h
    simp only at h
    simp [hv, hs, h]

/-- Witness for C7: a name match (case-insensitive) returns the first
matching bucket's ID; an unmatched value enumerates the available buckets. -/
theorem resolve_bucket_matching_witness :
    (resolve_bucket_id
      { groups := .ok [{ id := some "g1" }],
        plansOf := fun _ => .ok [{ id := some "p1", title := some "Board" }],
        bucketsOf := fun _ => .ok
          [{ id := some "B1", name := some "To Do" },
           { id := some "B2", name := some "Done" }] }
      "Board" (some "to do")).1 =
      { success := true, plan_name := "Board", plan_id := some "p1",
        bucket_id := some "B1", bucket_name := some "To Do" } ∧
    (resolve_bucket_id
      { groups := .ok [{ id := some "g1" }],
        plansOf := fun _ => .ok [{ id := some "p1", title := some "Board" }],
        bucketsOf := fun _ => .ok
          [{ id := some "B1", name := some "To Do" },
           { id := some "B2", name := some "Done" }] }
      "Board" (some "Trash")).1 =
      { success := false, plan_name := "Board", plan_id := some "p1",
        error := some ("Bucket Trash not found"),
        available_buckets := some
          [(some "B1", some "To Do"), (some "B2", some "Done")] } :=
  ⟨(resolve_bucket_matching _ "Board" (some "to do") (by decide)
      (by decide)).1 { id := some "B1", name := some "To Do" } (by decide),
   (resolve_bucket_matching _ "Board" (some "Trash") (by decide)
      (by decide)).2 (by decide)⟩

/-- C8: a `None`, empty or whitespace-only bucket value makes
`resolve_bucket_id` fail immediately with a validation error and issue no
network requests. -/
theorem resolve_bucket_empty_value (env : GraphEnv) (plan_name : String)
    (bucket_value : Option String)
    (h : (pyStrip (bucket_value.getD "")).isEmpty = true) :
    resolve_bucket_id env plan_name bucket_value =
      ({ success := false, plan_name := plan_name,
         error := some "Bucket value is empty" }, []) := by
  simp [resolve_bucket_id, h]

/-- Witness for C8: a whitespace-only value fails with the validation error
and an empty request log. -/
theorem resolve_bucket_empty_value_witness :
    resolve_bucket_id {} "Chores" (some "   ") =
      ({ success := false, plan_name := "Chores",
         error := some "Bucket value is empty" }, []) :=
  resolve_bucket_empty_value {} "Chores" (some "   ") (by decide)

/-- C9: `update_task` with every optional field absent returns the
`{success: false, error}` no-op failure and issues no network request. -/
theorem update_task_no_fields (env : TaskEnv) (task_id : String) :
    update_task env task_id none none none none none none =
      ({ success := false, error := some "No update fields were provided" },
       []) := rfl

/-- C6: `get_plan_tasks` degrades every failure of the listing path to a
snapshot with empty `open_tasks`, `total_open = 0` and an error string — it
is a total function of the environment (no exception escapes: every leaf that
can raise is caught by `list_all_groups`, `list_all_plans`,
`get_user_display_name` or `get_plan_tasks`'s own handler). -/
theorem get_plan_tasks_degrades (env : GraphEnv) (plan_name : String) :
    ((get_plan_by_name env plan_name).1 = none →
      (get_plan_tasks env plan_name).1 =
        { plan_name := plan_name, plan_id := none, open_tasks := [],
          total_open := 0,
          error := some ("Plan " ++ plan_name ++ " not found") }) ∧
    (∀ plan err, (get_plan_by_name env plan_name).1 = some plan →
      env.tasksOf plan.id = .error err →
      (get_plan_tasks env plan_name).1 =
        { plan_name := plan_name, plan_id := plan.id, open_tasks := [],
          total_open := 0, error := some err.msg }) := by
  unfold get_plan_tasks
  rcases hE : get_plan_by_name env plan_name with ⟨maybePlan, l1⟩
  constructor
  · intro h
    simp only at h
    subst h
    simp
  · intro plan err h1 h2
    simp only at h1
    subst h1
    simp [h2]

/-- Witness for C6: a plan-resolution failure (groups listing denied) and a
task-listing failure (500 on the tasks endpoint) both degrade to the empty
snapshot with an error string. -/
theorem get_plan_tasks_degrades_witness :
    (get_plan_tasks { groups := .error (.http 403 "forbidden") } "MyPlan").1 =
      { plan_name := "MyPlan", plan_id := none, open_tasks := [],
        total_open := 0, error := some "Plan MyPlan not found" } ∧
    (get_plan_tasks
      { groups := .ok [{ id := some "g1" }],
        plansOf := fun _ => .ok [{ id := some "p1", title := some "MyPlan" }],
        tasksOf := fun _ => .error (.http 500 "server error") } "MyPlan").1 =
      { plan_name := "MyPlan", plan_id := some "p1", open_tasks := [],
        total_open := 0, error := some "HTTP status 500" } :=
  ⟨(get_plan_tasks_degrades { groups := .error (.http 403 "forbidden") }
      "MyPlan").1 rfl,
   (get_plan_tasks_degrades _ "MyPlan").2
     { id := some "p1", title := some "MyPlan", group_name := none }
     (.http 500 "server error") rfl rfl⟩

/-- C10: the todo adapter's priority mappings round-trip: HIGH ↦ 1 ↦ HIGH,
NORMAL ↦ 5 ↦ NORMAL, LOW ↦ 9 ↦ LOW; in general converting any host priority
to a Planner number and back yields the same priority. -/
theorem priority_roundtrip :
    priority_to_planner (some .high) = 1 ∧
    priority_to_planner (some .normal) = 5 ∧
    priority_to_planner (some .low) = 9 ∧
    priority_from_planner (some 1) = .high ∧
    priority_from_planner (some 5) = .normal ∧
    priority_from_planner (some 9) = .low ∧
    ∀ p : TodoItemPriority,
      priority_from_planner (some (priority_to_planner (some p))) = p := by
  refine ⟨rfl, rfl, rfl, by decide, by decide, by decide, ?_⟩
  intro p
  cases p <;> decide
